/-
Verification of the ZeroMQ transport layer (salt/transport/zeromq.py):
a shallow embedding of its pure computations (URI composition, topic
hashing, publish framing, message decoding, endpoint validation) and of
the control flow of its stateful operations (request send/recv retry,
close paths), together with theorems settling the specified properties.
-/
import Mathlib

namespace SaltZmq

/-- Byte strings on the wire are lists of naturals below 256. -/
abbrev Bytes := List Nat

/-- UTF-8 encoding of a single Unicode code point, as bytes.
Models Python's str.encode, used by salt.utils.stringutils.to_bytes
(the spec fixes the encoding: "UTF-8 bytes of the identity"). -/
def utf8EncodeCharNat (c : Nat) : List Nat :=
  if c < 128 then [c]
  else if c < 2048 then [192 + c / 64, 128 + c % 64]
  else if c < 65536 then [224 + c / 4096, 128 + c / 64 % 64, 128 + c % 64]
  else [240 + c / 262144, 128 + c / 4096 % 64, 128 + c / 64 % 64, 128 + c % 64]

/-- UTF-8 bytes of a string (salt.utils.stringutils.to_bytes on str). -/
def utf8Bytes (s : String) : Bytes :=
  s.data.foldr (fun c acc => utf8EncodeCharNat c.toNat ++ acc) []

/-- One bit of exclusive or. -/
def bitXor1 (a b : Nat) : Nat := if a % 2 == b % 2 then 0 else 1

/-- Bitwise xor over the low k bits. -/
def xorAux : Nat → Nat → Nat → Nat
  | 0, _, _ => 0
  | k + 1, a, b => bitXor1 a b + 2 * xorAux k (a / 2) (b / 2)

/-- 32-bit xor. -/
def xor32 (a b : Nat) : Nat := xorAux 32 a b

/-- Bitwise and over the low k bits. -/
def andAux : Nat → Nat → Nat → Nat
  | 0, _, _ => 0
  | k + 1, a, b => a % 2 * (b % 2) + 2 * andAux k (a / 2) (b / 2)

/-- 32-bit and. -/
def and32 (a b : Nat) : Nat := andAux 32 a b

/-- Bitwise or over the low k bits. -/
def orAux : Nat → Nat → Nat → Nat
  | 0, _, _ => 0
  | k + 1, a, b => (if a % 2 + b % 2 == 0 then 0 else 1) + 2 * orAux k (a / 2) (b / 2)

/-- 32-bit or. -/
def or32 (a b : Nat) : Nat := orAux 32 a b

/-- 32-bit complement (valid for inputs below 2^32). -/
def not32 (a : Nat) : Nat := 4294967295 - a

/-- Reduction modulo 2^32. -/
def w32 (n : Nat) : Nat := n % 4294967296

/-- Left rotation of a 32-bit word by n bits (n between 1 and 31). -/
def rotl32 (n b : Nat) : Nat := b % 2 ^ (32 - n) * 2 ^ n + b / 2 ^ (32 - n)

/-- The SHA-1 round function f, by round index. -/
def sha1F (i b c d : Nat) : Nat :=
  if i < 20 then or32 (and32 b c) (and32 (not32 b) d)
  else if i < 40 then xor32 b (xor32 c d)
  else if i < 60 then or32 (and32 b c) (or32 (and32 b d) (and32 c d))
  else xor32 b (xor32 c d)

/-- The SHA-1 round constant, by round index. -/
def sha1K (i : Nat) : Nat :=
  if i < 20 then 1518500249
  else if i < 40 then 1859775393
  else if i < 60 then 2400959708
  else 3395469782

/-- Big-endian 32-bit words from a byte list whose length is a multiple of 4. -/
def bytesToWords : List Nat → List Nat
  | b0 :: b1 :: b2 :: b3 :: rest =>
      (((b0 * 256 + b1) * 256 + b2) * 256 + b3) :: bytesToWords rest
  | _ => []

/-- One step of the SHA-1 message-schedule extension; the word list is kept
most-recent first. -/
def extendStep (rev : List Nat) : List Nat :=
  rotl32 1 (xor32 (rev.getD 2 0) (xor32 (rev.getD 7 0)
    (xor32 (rev.getD 13 0) (rev.getD 15 0)))) :: rev

/-- Iterate the message-schedule extension k times. -/
def extendWords : Nat → List Nat → List Nat
  | 0, rev => rev
  | k + 1, rev => extendWords k (extendStep rev)

/-- The 80 SHA-1 rounds over the scheduled words, starting at round i. -/
def sha1Rounds : Nat → List Nat → Nat × Nat × Nat × Nat × Nat → Nat × Nat × Nat × Nat × Nat
  | _, [], st => st
  | i, w :: ws, (a, b, c, d, e) =>
      sha1Rounds (i + 1) ws
        (w32 (rotl32 5 a + sha1F i b c d + e + sha1K i + w), a, rotl32 30 b, c, d)

/-- SHA-1 compression of one 64-byte chunk into the running state. -/
def sha1Compress (h : Nat × Nat × Nat × Nat × Nat) (chunk : List Nat) :
    Nat × Nat × Nat × Nat × Nat :=
  let ws := bytesToWords chunk
  let w80 := (extendWords 64 ws.reverse).reverse
  match h, sha1Rounds 0 w80 h with
  | (h0, h1, h2, h3, h4), (a, b, c, d, e) =>
      (w32 (h0 + a), w32 (h1 + b), w32 (h2 + c), w32 (h3 + d), w32 (h4 + e))

/-- SHA-1 padding: a 1 bit, zeros to 56 mod 64, and the 64-bit big-endian
bit length. -/
def sha1Pad (msg : List Nat) : List Nat :=
  let len := msg.length
  let ml := 8 * len
  msg ++ 128 :: List.replicate ((119 - len % 64) % 64) 0 ++
    [ml / 72057594037927936 % 256, ml / 281474976710656 % 256,
     ml / 1099511627776 % 256, ml / 4294967296 % 256,
     ml / 16777216 % 256, ml / 65536 % 256, ml / 256 % 256, ml % 256]

/-- Split a list into chunks of 64, with explicit fuel (the list length). -/
def chunks64 : Nat → List Nat → List (List Nat)
  | 0, _ => []
  | fuel + 1, l => if l.isEmpty then [] else l.take 64 :: chunks64 fuel (l.drop 64)

/-- The five 32-bit words of the SHA-1 digest of a byte string. -/
def sha1Digest (msg : List Nat) : Nat × Nat × Nat × Nat × Nat :=
  let padded := sha1Pad msg
  (chunks64 padded.length padded).foldl sha1Compress
    (1732584193, 4023233417, 2562383102, 271733878, 3285377520)

/-- A lowercase hexadecimal digit. -/
def hexDigit (n : Nat) : Char := if n < 10 then Char.ofNat (48 + n) else Char.ofNat (87 + n)

/-- Eight lowercase hex digits of a 32-bit word, most significant first. -/
def wordHex8 (w : Nat) : List Char :=
  [hexDigit (w / 268435456 % 16), hexDigit (w / 16777216 % 16),
   hexDigit (w / 1048576 % 16), hexDigit (w / 65536 % 16),
   hexDigit (w / 4096 % 16), hexDigit (w / 256 % 16),
   hexDigit (w / 16 % 16), hexDigit (w % 16)]

/-- Lowercase hex SHA-1 digest of a byte string:
hashlib.sha1(data).hexdigest(). -/
def sha1Hex (msg : List Nat) : String :=
  match sha1Digest msg with
  | (h0, h1, h2, h3, h4) =>
      String.mk (wordHex8 h0 ++ wordHex8 h1 ++ wordHex8 h2 ++ wordHex8 h3 ++ wordHex8 h4)

/-- The topic hash of an identity string: lowercase hex SHA-1 of its UTF-8
bytes. This is self.hexid as computed by PublishClient._legacy_setup
(zeromq.py line 143) and the per-topic hash of
PublishServer.publish_payload (lines 1021-1023). -/
def topicHash (id : String) : String := sha1Hex (utf8Bytes id)

/-- Modelled from the spec: salt.utils.network.ip_bracket is repository
code that is not under src/; per the spec, "IPv6 literals are wrapped in
brackets". An address is treated as an IPv6 literal iff it contains a
colon. -/
def ip_bracket (addr : String) : String :=
  if addr.data.contains (':') then "[" ++ addr ++ "]" else addr

/-- Modelled from the spec: the address-family test
ipaddress.ip_address(master_ip).version == 4 comes from the Python
stdlib; per the spec the source wildcard must "match the destination's
address family", and an IPv4 literal contains no colon. -/
def isIPv4 (addr : String) : Bool := !(addr.data.contains (':'))

/-- Python truthiness of an optional string (None and "" are falsy). -/
def strTruthy : Option String → Bool
  | none => false
  | some s => !s.isEmpty

/-- Python truthiness of an optional number (None and 0 are falsy). -/
def natTruthy : Option Nat → Bool
  | none => false
  | some n => n != 0

/-- Embedding of _get_master_uri (zeromq.py lines 48-105). The flag
sourceBindSupported stands for the library version test
LIBZMQ_VERSION_INFO >= (4, 1, 6) and ZMQ_VERSION_INFO >= (16, 0, 1). -/
def get_master_uri (sourceBindSupported : Bool) (master_ip : String)
    (master_port : Nat) (source_ip : Option String) (source_port : Option Nat) :
    String :=
  let base := "tcp://" ++ ip_bracket master_ip ++ ":" ++ toString master_port
  if strTruthy source_ip || natTruthy source_port then
    if sourceBindSupported then
      if strTruthy source_ip && natTruthy source_port then
        "tcp://" ++ ip_bracket (source_ip.getD "") ++ ":"
          ++ toString (source_port.getD 0) ++ ";"
          ++ ip_bracket master_ip ++ ":" ++ toString master_port
      else if strTruthy source_ip && !natTruthy source_port then
        "tcp://" ++ ip_bracket (source_ip.getD "") ++ ":0;"
          ++ ip_bracket master_ip ++ ":" ++ toString master_port
      else if natTruthy source_port && !strTruthy source_ip then
        let ip_any := if isIPv4 master_ip then "0.0.0.0" else ip_bracket ("::")
        "tcp://" ++ ip_any ++ ":" ++ toString (source_port.getD 0) ++ ";"
          ++ ip_bracket master_ip ++ ":" ++ toString master_port
      else base
    else base
  else base

/-- Errors raised out of PublishClient._decode_messages. The branch for
an unexpected frame count evaluates len(messages_len) where messages_len
is an int, so Python raises a TypeError while formatting the intended
message; the exception that escapes is that TypeError (zeromq.py lines
317-322). -/
inductive PyError where
  | typeError
  deriving Repr, DecidableEq

/-- The argument of _decode_messages: either a multipart frame list or a
single raw (non-list) frame. -/
inductive ZMessages where
  | multi (frames : List Bytes)
  | raw (b : Bytes)
  deriving Repr, DecidableEq

/-- Embedding of PublishClient._decode_messages (zeromq.py lines
291-327), parametric in the payload deserializer salt.payload.loads (an
external collaborator). role is self.opts.get("__role") and hexid is
self.hexid. The comparison of the decoded first frame with the ASCII
constants "broadcast"/"syndic" and the ASCII hex digest is embedded at
the byte level, against their UTF-8 encodings; per the spec the topic
"is raw bytes" and "is compared for equality". The value Except.ok none
embeds Python's return None (message dropped). -/
def decode_messages {α : Type} (role : Option String) (hexid : String)
    (loads : Bytes → α) : ZMessages → Except PyError (Option α)
  | .raw b => .ok (some (loads b))
  | .multi frames =>
    match frames with
    | [m0] => .ok (some (loads m0))
    | [m0, m1] =>
        if (!(role == some ("syndic"))
              && !(m0 == utf8Bytes ("broadcast") || m0 == utf8Bytes hexid))
            || (role == some ("syndic")
              && !(m0 == utf8Bytes ("broadcast") || m0 == utf8Bytes ("syndic")))
        then .ok none
        else .ok (some (loads m1))
    | _ => .error PyError.typeError

/-- One transmission on the fan-out socket: send (single frame) or
send_multipart. -/
inductive Transmission where
  | single (b : Bytes)
  | multipart (frames : List Bytes)
  deriving Repr, DecidableEq

/-- Python truthiness of the optional topic_list argument (None and the
empty list are falsy). -/
def topicListTruthy : Option (List String) → Bool
  | none => false
  | some l => !l.isEmpty

/-- Embedding of PublishServer.publish_payload (zeromq.py lines
1013-1040): the sequence of transmissions performed on the fan-out
socket, in order. -/
def publish_payload (zmq_filtering : Bool) (order_masters : Bool)
    (payload : Bytes) (topic_list : Option (List String)) : List Transmission :=
  if zmq_filtering then
    if topicListTruthy topic_list then
      (topic_list.getD []).map
        (fun topic => Transmission.multipart [utf8Bytes (topicHash topic), payload])
      ++ (if order_masters
          then [Transmission.multipart [utf8Bytes ("syndic"), payload]] else [])
    else [Transmission.multipart [utf8Bytes ("broadcast"), payload]]
  else [Transmission.single payload]

/-- Embedding of the endpoint validation in PublishClient.__init__
(zeromq.py lines 222-227): true iff construction raises. The first
branch compares host and port (and then path) with None; the second
branch uses Python truthiness. -/
def publishClientInitRaises (host : Option String) (port : Option Nat)
    (path : Option String) : Bool :=
  if host.isNone && port.isNone then path.isNone
  else if strTruthy host && natTruthy port then strTruthy path
  else false

/-- Transport-level error classes seen by RequestClient._send_recv:
zmq.error.ZMQError (the class its except clause catches) or any other
exception. -/
inductive TErr where
  | zmq
  | other
  deriving Repr, DecidableEq

/-- Result of one socket send or recv operation. -/
inductive OpResult where
  | ok (b : Bytes)
  | err (e : TErr)
  deriving Repr, DecidableEq

/-- Observable actions of RequestClient._send_recv. -/
inductive Action where
  | acquire
  | sendOp
  | recvOp
  | closeSock
  | connectSock
  | release
  deriving Repr, DecidableEq

/-- Interpreter state for _send_recv: the index of the next socket
operation in the environment, and the trace of actions so far. -/
structure RunState where
  idx : Nat
  tr : List Action
  deriving Repr, DecidableEq

/-- Append an action to the trace. -/
def emit (a : Action) (s : RunState) : RunState := ⟨s.idx, s.tr ++ [a]⟩

/-- Perform one socket operation: record it and consume the next
environment outcome. -/
def doOp (env : Nat → OpResult) (a : Action) (s : RunState) :
    OpResult × RunState :=
  (env s.idx, ⟨s.idx + 1, s.tr ++ [a]⟩)

/-- The recovery path of RequestClient._send_recv (zeromq.py lines
1182-1186): on zmq.error.ZMQError, self.close(), await self.connect(),
then one retried send and recv whose errors are not caught; an escaping
exception still releases the lock on the way out. -/
def sendRecvRecover (env : Nat → OpResult) (s : RunState) :
    Except TErr Bytes × RunState :=
  let s1 := emit Action.connectSock (emit Action.closeSock s)
  match doOp env Action.sendOp s1 with
  | (OpResult.err e, s2) => (Except.error e, emit Action.release s2)
  | (OpResult.ok _, s2) =>
    match doOp env Action.recvOp s2 with
    | (OpResult.err e, s3) => (Except.error e, emit Action.release s3)
    | (OpResult.ok v, s3) => (Except.ok v, emit Action.release s3)

/-- Embedding of RequestClient._send_recv (zeromq.py lines 1176-1187):
acquire the sending lock, send then recv, and on zmq.error.ZMQError in
either, run the recovery path once; any other exception propagates with
no recovery. The lock is released when the async-with block is left,
also on an escaping exception. The environment assigns an outcome to
each successive socket operation. -/
def sendRecvRun (env : Nat → OpResult) (s0 : RunState) :
    Except TErr Bytes × RunState :=
  let s1 := emit Action.acquire s0
  match doOp env Action.sendOp s1 with
  | (OpResult.err TErr.zmq, s2) => sendRecvRecover env s2
  | (OpResult.err TErr.other, s2) =>
      (Except.error TErr.other, emit Action.release s2)
  | (OpResult.ok _, s2) =>
    match doOp env Action.recvOp s2 with
    | (OpResult.err TErr.zmq, s3) => sendRecvRecover env s3
    | (OpResult.err TErr.other, s3) =>
        (Except.error TErr.other, emit Action.release s3)
    | (OpResult.ok v, s3) => (Except.ok v, emit Action.release s3)

/-- Outcome of asyncio.wait_for(self._send_recv(load), timeout) as seen
by RequestClient.send: completion with a reply, elapse of the overall
timeout, or any other escaping exception. -/
inductive RoundTrip (α ε : Type) where
  | completes (v : α)
  | timesOut
  | raises (e : ε)
  deriving Repr, DecidableEq

/-- What RequestClient.send delivers to its caller. -/
inductive SendOutcome (α ε : Type) where
  | ok (v : α)
  | requestTimeout
  | exc (e : ε)
  deriving Repr, DecidableEq

/-- RequestClient state relevant to send, connect and close: whether
self.socket is set, the _closing flag, and whether self.context is a
live context. -/
structure ReqClientState where
  socket : Bool
  closing : Bool
  context : Bool
  deriving Repr, DecidableEq

/-- Embedding of RequestClient.close (zeromq.py lines 1164-1174):
guarded by the _closing flag; closes and drops the socket and
terminates and drops the context. -/
def reqClose (s : ReqClientState) : ReqClientState :=
  if s.closing then s else { socket := false, closing := true, context := false }

/-- Embedding of RequestClient.connect and _init_socket (zeromq.py lines
1133-1161): when the socket is absent, clear _closing and build a fresh
context and socket. -/
def reqConnect (s : ReqClientState) : ReqClientState :=
  if s.socket then s
  else { socket := true, closing := false, context := true }

/-- Embedding of RequestClient.send (zeromq.py lines 1189-1202): lazy
connect when the socket is absent, then await the round trip under the
overall timeout; a timeout closes the socket and raises
SaltReqTimeoutError; any other exception closes the socket and is
re-raised; a completed round trip returns its value. -/
def reqSend {α ε : Type} (rt : RoundTrip α ε) (s : ReqClientState) :
    SendOutcome α ε × ReqClientState :=
  let s1 := if !s.socket then reqConnect s else s
  match rt with
  | RoundTrip.completes v => (SendOutcome.ok v, s1)
  | RoundTrip.timesOut => (SendOutcome.requestTimeout, reqClose s1)
  | RoundTrip.raises e => (SendOutcome.exc e, reqClose s1)

/-- ZeroMQSocketMonitor state: the parent socket reference, the run
flag, and the monitor socket reference. -/
structure MonitorState where
  parentSocket : Bool
  running : Bool
  monitorSocket : Bool
  deriving Repr, DecidableEq

/-- Embedding of ZeroMQSocketMonitor.stop (zeromq.py lines 827-837): a
no-op once the parent socket reference has been dropped. -/
def monitorStop (m : MonitorState) : MonitorState :=
  if !m.parentSocket then m
  else { parentSocket := false, running := false, monitorSocket := false }

/-- PublishClient state relevant to close. -/
structure PubClientState where
  closing : Bool
  monitor : Option MonitorState
  socketClosed : Bool
  contextTerminated : Bool
  callbacks : List Nat
  deriving Repr, DecidableEq

/-- Embedding of PublishClient.close (zeromq.py lines 230-247): guarded
by the _closing flag; stops and drops the monitor, closes the stream or
socket, terminates the context, and clears every callback registration
and its run flag. -/
def pubClientClose (s : PubClientState) : PubClientState :=
  if s.closing then s
  else { closing := true, monitor := none, socketClosed := true,
         contextTerminated := true, callbacks := [] }

/-- PublishServer state relevant to close. Library socket and context
handles are embedded together with their closed flag; pyzmq
Socket.close and Context.destroy/term are no-ops on already-closed
handles (external library semantics). -/
structure PubServerState where
  sock : Option Bool
  ctx : Option Bool
  daemonMonitor : Option MonitorState
  daemonPubSock : Option Bool
  daemonPullSock : Option Bool
  daemonContext : Option Bool
  deriving Repr, DecidableEq

/-- Embedding of PublishServer.close (zeromq.py lines 1068-1089): drop
and close the producer socket; terminate and drop the producer context
when it is live; stop the daemon monitor; close the daemon fan-out and
pull sockets; destroy the daemon context. There is no _closing guard in
this method. -/
def pubServerClose (s : PubServerState) : PubServerState :=
  let s1 := match s.sock with
    | none => s
    | some _ => { s with sock := none }
  let s2 := match s1.ctx with
    | none => s1
    | some closed => if closed then s1 else { s1 with ctx := none }
  let s3 := match s2.daemonMonitor with
    | none => s2
    | some m => { s2 with daemonMonitor := some (monitorStop m) }
  let s4 := match s3.daemonPubSock with
    | none => s3
    | some _ => { s3 with daemonPubSock := some true }
  let s5 := match s4.daemonPullSock with
    | none => s4
    | some _ => { s4 with daemonPullSock := some true }
  match s5.daemonContext with
    | none => s5
    | some _ => { s5 with daemonContext := some true }

/-- Configuration keys consumed by the worker-endpoint computation. -/
structure WorkerOpts where
  ipc_mode : Option String
  tcp_master_workers : Option Nat
  sock_dir : String
  deriving Repr, DecidableEq

/-- Modelled from the spec and the Python stdlib: os.path.join with a
relative second component appends it after a single separator. -/
def pathJoin (dir name : String) : String :=
  if dir.isEmpty then name
  else if dir.endsWith ("/") then dir ++ name
  else dir ++ "/" ++ name

/-- The worker-endpoint URI computed by the broker process, Stage A:
RequestServer.zmq_device (zeromq.py lines 442-449). -/
def zmq_device_w_uri (o : WorkerOpts) : String :=
  if o.ipc_mode.getD "" = "tcp" then
    "tcp://127.0.0.1:" ++ toString (o.tcp_master_workers.getD 4515)
  else
    "ipc://" ++ pathJoin o.sock_dir ("workers.ipc")

/-- The worker-endpoint URI computed by each forked worker, Stage B:
RequestServer.post_fork (zeromq.py lines 541-550). -/
def post_fork_w_uri (o : WorkerOpts) : String :=
  if o.ipc_mode.getD "" = "tcp" then
    "tcp://127.0.0.1:" ++ toString (o.tcp_master_workers.getD 4515)
  else
    "ipc://" ++ pathJoin o.sock_dir ("workers.ipc")

/-- A concrete operation environment whose very first send raises
zmq.error.ZMQError and whose later operations all succeed. -/
def envRetryW : Nat → OpResult := fun n =>
  match n with
  | 0 => OpResult.err TErr.zmq
  | _ => OpResult.ok [3]

/-- Stopping a stopped monitor changes nothing. -/
theorem monitorStop_idem (m : MonitorState) :
    monitorStop (monitorStop m) = monitorStop m := by
  by_cases h : m.parentSocket <;> simp [monitorStop, h]

/-- Exchanging the branches of a conditional on a negated conjunction. -/
theorem if_not_not_comm {γ : Type} (A B : Prop) [Decidable A] [Decidable B]
    (u v : γ) :
    (if ¬A ∧ ¬B then u else v) = if A ∨ B then v else u := by
  by_cases hA : A <;> by_cases hB : B <;> simp [hA, hB]

/-- C1: for every subscriber and every received two-frame publish
message [t, p], the decoder returns the decoded payload iff t is
"broadcast" or the subscriber's topic hash (the lowercase hex SHA-1 of
the UTF-8 bytes of its identity) when the role is not "syndic", and iff
t is "broadcast" or "syndic" when the role is "syndic"; in every other
case the message is dropped and nothing is returned. -/
theorem decode_two_frame_filtering {α : Type} (role : Option String)
    (id : String) (loads : Bytes → α) (t p : Bytes) :
    decode_messages role (topicHash id) loads (ZMessages.multi [t, p]) =
      if (if role = some ("syndic")
          then t = utf8Bytes ("broadcast") ∨ t = utf8Bytes ("syndic")
          else t = utf8Bytes ("broadcast") ∨ t = utf8Bytes (topicHash id))
      then Except.ok (some (loads p))
      else Except.ok none := by
  by_cases hr : role = some ("syndic") <;>
    by_cases hb : t = utf8Bytes ("broadcast") <;>
      by_cases hs : t = utf8Bytes ("syndic") <;>
        by_cases hh : t = utf8Bytes (topicHash id) <;>
          simp [decode_messages, hr, hb, hs, hh] <;>
            (try (exact if_not_not_comm _ _ _ _))

/-- C2: for every payload, publish_payload transmits: with filtering
disabled, the single frame payload; with filtering enabled and a
non-empty topic list, one two-frame message [lowercase hex SHA-1 of the
topic as bytes, payload] per topic in list order, then one additional
[b"syndic", payload] exactly when order_masters is configured; with
filtering enabled and no topic list, the single two-frame message
[b"broadcast", payload]. -/
theorem publish_payload_frames (filtering order_masters : Bool) (p : Bytes)
    (tl : Option (List String)) :
    publish_payload filtering order_masters p tl =
      if filtering then
        match tl with
        | some (t :: ts) =>
            (t :: ts).map (fun topic =>
              Transmission.multipart [utf8Bytes (sha1Hex (utf8Bytes topic)), p])
            ++ (if order_masters
                then [Transmission.multipart [utf8Bytes ("syndic"), p]] else [])
        | _ => [Transmission.multipart [utf8Bytes ("broadcast"), p]]
      else [Transmission.single p] := by
  cases filtering with
  | false => simp [publish_payload]
  | true =>
    cases tl with
    | none => simp [publish_payload, topicListTruthy]
    | some l =>
      cases l with
      | nil => simp [publish_payload, topicListTruthy]
      | cons t ts => simp [publish_payload, topicListTruthy, topicHash]

/-- C7: on a publish message whose frame count is neither 1 nor 2, the
decoder raises; but the exception that escapes is the TypeError from
evaluating len(messages_len) on an int, so the raised error does not
report the unexpected frame count. Evaluated here at the failing
three-frame input. -/
theorem decode_three_frames_raises_typeerror :
    decode_messages none "" (fun b => b) (ZMessages.multi [[97], [98], [99]]) =
      Except.error PyError.typeError := rfl

/-- C9: the worker-endpoint URI computed by the broker process (Stage A,
zmq_device) equals the one computed by each worker (Stage B, post_fork),
and both are "tcp://127.0.0.1:" followed by tcp_master_workers (default
4515) when ipc_mode is "tcp", and "ipc://" followed by sock_dir joined
with "workers.ipc" otherwise. -/
theorem worker_uri_agreement (o : WorkerOpts) :
    zmq_device_w_uri o = post_fork_w_uri o ∧
    post_fork_w_uri o =
      (if o.ipc_mode.getD "" = "tcp"
       then "tcp://127.0.0.1:" ++ toString (o.tcp_master_workers.getD 4515)
       else "ipc://" ++ pathJoin o.sock_dir ("workers.ipc")) :=
  ⟨rfl, rfl⟩

/-- C10: a non-list value handed to the decoder is deserialized directly
and returned as the payload, for every role and topic hash, bypassing
topic filtering and frame-count validation. -/
theorem decode_raw_bypasses_filtering {α : Type} (role : Option String)
    (hexid : String) (loads : Bytes → α) (b : Bytes) :
    decode_messages role hexid loads (ZMessages.raw b) =
      Except.ok (some (loads b)) := rfl

/-- C3: when a ZMQ transport error occurs during the first send or the
first recv of RequestClient._send_recv, then, while still holding the
serialization lock, the client closes the socket, reconnects and retries
the send/recv exactly once: the trace holds exactly one close, one
connect and two send attempts, all between the single lock acquire and
the single release; and a transport error during the retried operations
propagates to the caller with no further retry. -/
theorem send_recv_retry_once (env : Nat → OpResult)
    (h : env 0 = OpResult.err TErr.zmq ∨
         ((∃ b, env 0 = OpResult.ok b) ∧ env 1 = OpResult.err TErr.zmq)) :
    ((sendRecvRun env ⟨0, []⟩).2.tr.count Action.closeSock = 1 ∧
     (sendRecvRun env ⟨0, []⟩).2.tr.count Action.connectSock = 1 ∧
     (sendRecvRun env ⟨0, []⟩).2.tr.count Action.sendOp = 2 ∧
     (sendRecvRun env ⟨0, []⟩).2.tr.count Action.acquire = 1 ∧
     (sendRecvRun env ⟨0, []⟩).2.tr.count Action.release = 1 ∧
     (sendRecvRun env ⟨0, []⟩).2.tr.head? = some Action.acquire ∧
     (sendRecvRun env ⟨0, []⟩).2.tr.getLast? = some Action.release) ∧
    (env 0 = OpResult.err TErr.zmq →
      (∀ e, env 1 = OpResult.err e →
        (sendRecvRun env ⟨0, []⟩).1 = Except.error e) ∧
      (∀ b e, env 1 = OpResult.ok b → env 2 = OpResult.err e →
        (sendRecvRun env ⟨0, []⟩).1 = Except.error e) ∧
      (∀ b v, env 1 = OpResult.ok b → env 2 = OpResult.ok v →
        (sendRecvRun env ⟨0, []⟩).1 = Except.ok v)) ∧
    ((∃ b, env 0 = OpResult.ok b) →
      (∀ e, env 2 = OpResult.err e →
        (sendRecvRun env ⟨0, []⟩).1 = Except.error e) ∧
      (∀ b e, env 2 = OpResult.ok b → env 3 = OpResult.err e →
        (sendRecvRun env ⟨0, []⟩).1 = Except.error e) ∧
      (∀ b v, env 2 = OpResult.ok b → env 3 = OpResult.ok v →
        (sendRecvRun env ⟨0, []⟩).1 = Except.ok v)) := by
  rcases h with h0 | ⟨⟨b0, h0⟩, h1⟩
  · rcases he1 : env 1 with b1 | e1
    · rcases he2 : env 2 with b2 | e2 <;>
        simp [sendRecvRun, sendRecvRecover, doOp, emit, h0, he1, he2,
          List.count_cons]
    · simp [sendRecvRun, sendRecvRecover, doOp, emit, h0, he1,
        List.count_cons]
  · rcases he2 : env 2 with b2 | e2
    · rcases he3 : env 3 with b3 | e3 <;>
        simp [sendRecvRun, sendRecvRecover, doOp, emit, h0, h1, he2, he3,
          List.count_cons]
    · simp [sendRecvRun, sendRecvRecover, doOp, emit, h0, h1, he2,
        List.count_cons]

/-- Witness for C3: a concrete environment whose first send raises a ZMQ
error and whose retry succeeds; the trace shows exactly one reconnect
cycle inside the lock window. -/
theorem send_recv_retry_once_witness :
    (envRetryW 0 = OpResult.err TErr.zmq ∨
      ((∃ b, envRetryW 0 = OpResult.ok b) ∧
        envRetryW 1 = OpResult.err TErr.zmq)) ∧
    ((sendRecvRun envRetryW ⟨0, []⟩).2.tr.count Action.closeSock = 1 ∧
     (sendRecvRun envRetryW ⟨0, []⟩).2.tr.count Action.connectSock = 1 ∧
     (sendRecvRun envRetryW ⟨0, []⟩).2.tr.count Action.sendOp = 2 ∧
     (sendRecvRun envRetryW ⟨0, []⟩).2.tr.count Action.acquire = 1 ∧
     (sendRecvRun envRetryW ⟨0, []⟩).2.tr.count Action.release = 1 ∧
     (sendRecvRun envRetryW ⟨0, []⟩).2.tr.head? = some Action.acquire ∧
     (sendRecvRun envRetryW ⟨0, []⟩).2.tr.getLast? = some Action.release) :=
  ⟨Or.inl rfl, (send_recv_retry_once envRetryW (Or.inl rfl)).1⟩

/-- C4: RequestClient.send: when the serialized round trip does not
complete within the timeout, the client raises the RequestTimeout error
and its socket ends up closed; every other exception escaping the round
trip also leaves the socket closed and is re-raised to the caller. -/
theorem reqclient_send_timeout_closes {α ε : Type} (rt : RoundTrip α ε)
    (s : ReqClientState) (h : s.closing = false) :
    (rt = RoundTrip.timesOut →
      (reqSend rt s).1 = SendOutcome.requestTimeout ∧
      (reqSend rt s).2.socket = false) ∧
    (∀ e, rt = RoundTrip.raises e →
      (reqSend rt s).1 = SendOutcome.exc e ∧
      (reqSend rt s).2.socket = false) := by
  cases rt <;> cases hs : s.socket <;>
    simp [reqSend, reqConnect, reqClose, hs, h]

/-- Witness for C4: a concrete timed-out round trip on a live client
state. -/
theorem reqclient_send_timeout_closes_witness :
    (⟨true, false, true⟩ : ReqClientState).closing = false ∧
    (reqSend (RoundTrip.timesOut : RoundTrip Nat Nat) ⟨true, false, true⟩).1 =
      SendOutcome.requestTimeout ∧
    (reqSend (RoundTrip.timesOut : RoundTrip Nat Nat)
      ⟨true, false, true⟩).2.socket = false :=
  ⟨rfl,
   ((reqclient_send_timeout_closes RoundTrip.timesOut ⟨true, false, true⟩
      rfl).1 rfl).1,
   ((reqclient_send_timeout_closes RoundTrip.timesOut ⟨true, false, true⟩
      rfl).1 rfl).2⟩

/-- C5: the URI composer returns tcp://dst with no source components;
tcp://src;dst when the library supports source binding and both source
components are given; a source port of 0 with only source_ip; the
family-matching wildcard "0.0.0.0" or "[::]" with only source_port; and
plain tcp://dst (source components ignored) when the library lacks
source-bind support. IPv6 literals are bracketed by ip_bracket
throughout. -/
theorem master_uri_composition (sb : Bool) (mip : String) (mport : Nat)
    (sip : Option String) (sport : Option Nat) :
    (strTruthy sip = false → natTruthy sport = false →
      get_master_uri sb mip mport sip sport =
        "tcp://" ++ ip_bracket mip ++ ":" ++ toString mport) ∧
    (sb = false →
      get_master_uri sb mip mport sip sport =
        "tcp://" ++ ip_bracket mip ++ ":" ++ toString mport) ∧
    (∀ i p, sb = true → sip = some i → i.isEmpty = false →
      sport = some p → p ≠ 0 →
      get_master_uri sb mip mport sip sport =
        "tcp://" ++ ip_bracket i ++ ":" ++ toString p ++ ";"
          ++ ip_bracket mip ++ ":" ++ toString mport) ∧
    (∀ i, sb = true → sip = some i → i.isEmpty = false →
      natTruthy sport = false →
      get_master_uri sb mip mport sip sport =
        "tcp://" ++ ip_bracket i ++ ":0;" ++ ip_bracket mip ++ ":"
          ++ toString mport) ∧
    (∀ p, sb = true → strTruthy sip = false → sport = some p → p ≠ 0 →
      get_master_uri sb mip mport sip sport =
        "tcp://" ++ (if isIPv4 mip then "0.0.0.0" else "[::]") ++ ":"
          ++ toString p ++ ";" ++ ip_bracket mip ++ ":" ++ toString mport) := by
  have hbr : ip_bracket ("::") = "[::]" := by decide
  refine ⟨?_, ?_, ?_, ?_, ?_⟩
  · intro h1 h2
    simp [get_master_uri, h1, h2]
  · intro hsb
    subst hsb
    simp [get_master_uri]
  · intro i p hsb hsip hie hsp hp
    subst hsb; subst hsip; subst hsp
    simp [get_master_uri, strTruthy, natTruthy, hie, hp]
  · intro i hsb hsip hie hnp
    subst hsb; subst hsip
    simp [get_master_uri, strTruthy, hie, hnp]
  · intro p hsb hsipf hsp hp
    subst hsb; subst hsp
    simp [get_master_uri, natTruthy, hsipf, hp, hbr]

/-- Witness for C5: both source components given, library support on. -/
theorem master_uri_composition_witness :
    get_master_uri true ("1.2.3.4") 4506 (some ("10.0.0.1")) (some 4000) =
      "tcp://" ++ ip_bracket ("10.0.0.1") ++ ":" ++ toString 4000 ++ ";"
        ++ ip_bracket ("1.2.3.4") ++ ":" ++ toString 4506 :=
  (master_uri_composition true ("1.2.3.4") 4506 (some ("10.0.0.1"))
    (some 4000)).2.2.1 ("10.0.0.1") 4000 rfl rfl rfl rfl (by decide)

/-- C6 counterexample: with a host but neither a port nor a path,
the claim demands a configuration error at construction, but
PublishClient.__init__ does not raise there. -/
theorem publishclient_init_host_only_cex :
    ¬ publishClientInitRaises (some ("127.0.0.1")) none none = true := by
  decide

/-- C6 (amended): construction raises exactly when host, port and path
are all None, or host, port and path are all truthy (a path together
with a complete truthy host+port pair); in every other combination,
including a host without a port or a port without a host, construction
succeeds. -/
theorem publishclient_init_raises_iff (host : Option String)
    (port : Option Nat) (path : Option String) :
    publishClientInitRaises host port path = true ↔
      ((host = none ∧ port = none ∧ path = none) ∨
       (strTruthy host = true ∧ natTruthy port = true ∧
        strTruthy path = true)) := by
  cases host <;> cases port <;> cases path <;>
    simp [publishClientInitRaises, strTruthy, natTruthy, and_assoc]

/-- Witness for C6 (amended): the all-None endpoint configuration
raises. -/
theorem publishclient_init_raises_iff_witness :
    publishClientInitRaises none none none = true :=
  (publishclient_init_raises_iff none none none).mpr
    (Or.inl ⟨rfl, rfl, rfl⟩)

/-- C8: close is idempotent for PublishClient, RequestClient and
PublishServer: a second close after a completed first close is modelled
by a total function (no error) and leaves the closed state unchanged. -/
theorem close_idempotent (a : PubClientState) (b : ReqClientState)
    (c : PubServerState) :
    pubClientClose (pubClientClose a) = pubClientClose a ∧
    reqClose (reqClose b) = reqClose b ∧
    pubServerClose (pubServerClose c) = pubServerClose c := by
  refine ⟨?_, ?_, ?_⟩
  · by_cases h : a.closing = true <;> simp [pubClientClose, h]
  · by_cases h : b.closing = true <;> simp [reqClose, h]
  · rcases c with ⟨so, cx, dm, dpub, dpull, dctx⟩
    rcases cx with _ | cxb
    · cases so <;> cases dm <;> cases dpub <;> cases dpull <;> cases dctx <;>
        simp [pubServerClose, monitorStop_idem]
    · cases cxb <;> cases so <;> cases dm <;> cases dpub <;>
        cases dpull <;> cases dctx <;>
          simp [pubServerClose, monitorStop_idem]

end SaltZmq
